import Mathlib

/-!
Shallow embedding of techninja8/shorrt (src/main.go), a URL shortener.

The store is the `urls` SQLite table (a list of rows), the cache is the
Redis instance (an association list from token to original URL).  The two
HTTP handlers `shortenURL` and `redirectURL` are translated branch by
branch from the Go source; calls to external collaborators that can fail
independently of the modelled state (the QR-code file write, the cache
GET/SET, the store SELECT/UPDATE on the resolve path) take their outcome
from an explicit environment, mirroring `err != nil` checks in the code.

Timestamps are natural numbers.  Go's `time.Time` zero value (what a JSON
request that omits `expiration_date` binds to) is modelled as `0`; the
go-sqlite3 driver stores every `time.Time` as a non-NULL datetime, so the
inserted row always carries `some` expiration, which is what the scan
into `sql.NullTime` sees (`Valid = true`).
-/

set_option maxRecDepth 2000

namespace Shorrt

/-- Constant `charset` from main.go line 38. -/
def charset : String := "abcdefghijklmnopqrstuvwxyzABCDEFGHIJKLMNOPQRSTUVWXYZ0123456789"

/-- Constant `shortLinkLength` from main.go line 37. -/
def shortLinkLength : Nat := 6

/-- Function `stringWithCharset` from main.go lines 43-49.  `draws i` models the
result of the i-th `seededRand.Intn(len(charset))` call; the `Intn`
contract guarantees it is `< charset.length`, so the `getD` default is
never taken under that hypothesis. -/
def stringWithCharset (length : Nat) (cs : String) (draws : Nat → Nat) : String :=
  String.mk ((List.range length).map (fun i => cs.toList.getD (draws i) 'a'))

/-- Function `generateShortLink` from main.go lines 51-53. -/
def generateShortLink (draws : Nat → Nat) : String :=
  stringWithCharset shortLinkLength charset draws

/-- One row of the `urls` table (schema at main.go lines 69-77).  The Go
code always binds a string (possibly empty) for `custom_short` and a
`time.Time` for `expiration_date`, but the column is NULLABLE so the row
type keeps `Option`. -/
structure Row where
  id : Nat
  original : String
  short : String
  qrCode : String
  customShort : String
  expirationDate : Option Nat
  accessCount : Nat
deriving Repr, DecidableEq

/-- The mutable world the two handlers touch: the SQLite table and the
Redis cache (assoc list, most recent binding first, like repeated SET),
plus the AUTOINCREMENT counter. -/
structure State where
  rows : List Row
  cache : List (String × String)
  nextId : Nat
deriving Repr, DecidableEq

/-- The `WHERE short = ? OR custom_short = ?` predicate used by every
query in `redirectURL` (main.go lines 167, 188, 205, 212). -/
def rowMatches (tok : String) (r : Row) : Bool :=
  r.short == tok || r.customShort == tok

/-- `SELECT ... WHERE short = ? OR custom_short = ?` via `QueryRow`:
the first matching row, if any. -/
def findRow (rows : List Row) (tok : String) : Option Row :=
  rows.find? (rowMatches tok)

/-- `UPDATE urls SET access_count = ? WHERE short = ? OR custom_short = ?`
(main.go lines 188 and 212): every matching row gets the given count. -/
def setAccessCount (rows : List Row) (tok : String) (n : Nat) : List Row :=
  rows.map (fun r => if rowMatches tok r then { r with accessCount := n } else r)

/-- Outcome of one external call that can fail independently of the
modelled state. -/
inductive CallOutcome
  | ok
  | fail
deriving Repr, DecidableEq

/-- Failure injection for the calls `redirectURL` makes: the Redis GET
(`fail` models `err != nil && err != redis.Nil`), the SELECT issued on
whichever path runs, the UPDATE of the access count, and the Redis SET. -/
structure ResolveEnv where
  cacheGet : CallOutcome
  storeQuery : CallOutcome
  storeUpdate : CallOutcome
  cacheSet : CallOutcome
deriving Repr, DecidableEq

/-- The HTTP-visible outcome of `redirectURL`: 301 redirect, 404, 410
(expired), or 500. -/
inductive ResolveResult
  | redirect (url : String)
  | notFound
  | gone
  | serverError
deriving Repr, DecidableEq

/-- Condition `expirationDate.Valid && expirationDate.Time.Before(time.Now())`
(main.go line 180). -/
def isExpired (ed : Option Nat) (now : Nat) : Bool :=
  match ed with
  | some e => decide (e < now)
  | none => false

/-- Handler `redirectURL` from main.go lines 158-219, translated branch by
branch.  Cache hit skips the expiration check and redirects to the
cached value; cache miss queries the store, checks expiration, updates
the counter and warms the cache; a cache GET error is answered with 500;
UPDATE and cache SET errors are logged and ignored. -/
def redirectURL (env : ResolveEnv) (st : State) (short : String) (now : Nat) :
    ResolveResult × State :=
  match env.cacheGet with
  | .fail => (.serverError, st)
  | .ok =>
    match List.lookup short st.cache with
    | none =>
      match env.storeQuery with
      | .fail => (.serverError, st)
      | .ok =>
        match findRow st.rows short with
        | none => (.notFound, st)
        | some r =>
          if isExpired r.expirationDate now then
            (.gone, st)
          else
            let rows1 := match env.storeUpdate with
              | .ok => setAccessCount st.rows short (r.accessCount + 1)
              | .fail => st.rows
            let cache1 := match env.cacheSet with
              | .ok => (short, r.original) :: st.cache
              | .fail => st.cache
            (.redirect r.original, { st with rows := rows1, cache := cache1 })
    | some original =>
      match env.storeQuery with
      | .fail => (.serverError, st)
      | .ok =>
        match findRow st.rows short with
        | none => (.serverError, st)
        | some r =>
          let rows1 := match env.storeUpdate with
            | .ok => setAccessCount st.rows short (r.accessCount + 1)
            | .fail => st.rows
          (.redirect original, { st with rows := rows1 })

/-- The JSON body of a `POST /shorten` after binding: `original`,
`custom_short` (empty string when omitted, exactly like the Go struct
field) and `expiration_date` (`0` models the `time.Time` zero value a
request without the field binds to). -/
structure CreateRequest where
  original : String
  customShort : String
  expirationDate : Nat
deriving Repr, DecidableEq

/-- Failure injection for `shortenURL`: the QR-code file write and the
Redis SET. -/
structure CreateEnv where
  qrWrite : CallOutcome
  cacheSet : CallOutcome
deriving Repr, DecidableEq

/-- The HTTP-visible outcome of `shortenURL`: 200 with the stored link,
400 on validation failure, 500 on QR-write failure, 500 on INSERT
failure. -/
inductive CreateResult
  | ok (link : Row)
  | validationError
  | qrError
  | insertError
deriving Repr, DecidableEq

/-- Whether `shortenURL` answered 200. -/
def isOkCreate : CreateResult → Bool
  | .ok _ => true
  | _ => false

/-- The INSERT of main.go lines 133-134 violates a UNIQUE constraint iff
an existing row already holds the new `short` or the new `custom_short`.
Every row written by this program stores a non-NULL string (possibly
`""`) in `custom_short`, and in SQLite the empty string is an ordinary
value for UNIQUE purposes. -/
def insertConflict (rows : List Row) (short custom : String) : Bool :=
  rows.any (fun r => r.short == short) || rows.any (fun r => r.customShort == custom)

/-- Handler `shortenURL` from main.go lines 103-156, translated branch by
branch.  `validate` models the `validator/v10` check of the
`required,url` tag on `Original`; `genToken` is the value
`generateShortLink()` returned for this request. -/
def shortenURL (env : CreateEnv) (validate : String → Bool) (st : State)
    (req : CreateRequest) (genToken : String) : CreateResult × State :=
  if !(validate req.original) then
    (.validationError, st)
  else
    let short := if req.customShort != "" then req.customShort else genToken
    match env.qrWrite with
    | .fail => (.qrError, st)
    | .ok =>
      if insertConflict st.rows short req.customShort then
        (.insertError, st)
      else
        let row : Row :=
          { id := st.nextId, original := req.original, short := short,
            qrCode := "qrcodes/" ++ short ++ ".png", customShort := req.customShort,
            expirationDate := some req.expirationDate, accessCount := 0 }
        let cache1 := match env.cacheSet with
          | .ok => (short, req.original) :: st.cache
          | .fail => st.cache
        (.ok row, { rows := st.rows ++ [row], cache := cache1, nextId := st.nextId + 1 })

/-- The all-successful environment for resolution. -/
def envAllOk : ResolveEnv := ⟨.ok, .ok, .ok, .ok⟩

/-- The all-successful environment for creation. -/
def envCreateOk : CreateEnv := ⟨.ok, .ok⟩

/-- Whether `redirectURL` answered with a redirect. -/
def isRedirect : ResolveResult → Bool
  | .redirect _ => true
  | _ => false

/-- Iterate `n` sequential resolutions of the same token in the all-successful
environment; `nows i` is the clock at step `i`. -/
def resolveIter (st : State) (tok : String) (nows : Nat → Nat) : Nat → State
  | 0 => st
  | n + 1 => (redirectURL envAllOk (resolveIter st tok nows n) tok (nows n)).2

/-- A stored link whose expiration (5) is already past at time 100, with
its token warmed into the cache exactly as `shortenURL` leaves it. -/
def exRow1 : Row :=
  { id := 1, original := "http://a", short := "t", qrCode := "q", customShort := "",
    expirationDate := some 5, accessCount := 0 }

/-- State holding `exRow1` with its token present in the cache. -/
def exStateHit : State :=
  { rows := [exRow1], cache := [("t", "http://a")], nextId := 2 }

/-- A stored link that never expires (`expiration_date` NULL in the table). -/
def exRow2 : Row :=
  { id := 2, original := "http://b", short := "u", qrCode := "q2", customShort := "c",
    expirationDate := none, accessCount := 3 }

/-- State holding `exRow2` with a cold cache. -/
def exStateMiss : State :=
  { rows := [exRow2], cache := [], nextId := 3 }

/-- State holding `exRow2` with its token present in the cache. -/
def exStateWarm : State :=
  { rows := [exRow2], cache := [("u", "http://b")], nextId := 3 }

/-- The spec scenario request that omits `expiration_date`: Gin binds
the absent JSON field to the `time.Time` zero value, modelled as `0`. -/
def c4Request : CreateRequest :=
  { original := "https://example.com", customShort := "", expirationDate := 0 }

/-- The row `shortenURL` persists for `c4Request` with generated token
`"abc123"`: go-sqlite3 stores the zero `time.Time` as a non-NULL
datetime, so the row carries `some 0`, not `none`. -/
def c4Row : Row :=
  { id := 1, original := "https://example.com", short := "abc123",
    qrCode := "qrcodes/abc123.png", customShort := "",
    expirationDate := some 0, accessCount := 0 }

/-- C1 counterexample: a link whose `expiresAt` (5) is in the past at
resolution time (100) and whose token is present in the cache resolves
successfully to its original URL, contradicting the claim that an
expired link never resolves regardless of cache state. -/
theorem expired_cached_link_still_resolves :
    isExpired exRow1.expirationDate 100 = true ∧
      (redirectURL envAllOk exStateHit "t" 100).1 = .redirect "http://a" := by
  constructor
  · rfl
  · rfl

/-- C1 (amended): on the cache-miss path, a link whose `expiresAt` is in
the past at resolution time never resolves to any URL; only a cache hit
bypasses the expiration check. -/
theorem expired_link_never_resolves_on_miss (env : ResolveEnv) (st : State)
    (tok : String) (now : Nat) (r : Row) (e : Nat) (u : String)
    (hg : env.cacheGet = .ok)
    (hm : List.lookup tok st.cache = none)
    (hr : findRow st.rows tok = some r)
    (he : r.expirationDate = some e) (hlt : e < now) :
    (redirectURL env st tok now).1 ≠ .redirect u := by
  cases hq : env.storeQuery <;>
    simp [redirectURL, hg, hm, hq, hr, isExpired, he, hlt]

/-- Witness for the amended C1 theorem at a concrete expired link. -/
theorem expired_link_never_resolves_on_miss_witness :
    (redirectURL envAllOk ⟨[exRow1], [], 2⟩ "t" 100).1 ≠ .redirect "http://a" :=
  expired_link_never_resolves_on_miss envAllOk ⟨[exRow1], [], 2⟩ "t" 100 exRow1 5
    "http://a" rfl rfl rfl rfl (by decide)

/-- C7: when the cache misses and the store row's `expiresAt` is present
and in the past, `redirectURL` answers 410 and returns the state exactly
unchanged: no access-count update, no cache write. -/
theorem expired_miss_gone_and_frame (env : ResolveEnv) (st : State)
    (tok : String) (now : Nat) (r : Row) (e : Nat)
    (hg : env.cacheGet = .ok) (hq : env.storeQuery = .ok)
    (hm : List.lookup tok st.cache = none)
    (hr : findRow st.rows tok = some r)
    (he : r.expirationDate = some e) (hlt : e < now) :
    redirectURL env st tok now = (.gone, st) := by
  simp [redirectURL, hg, hq, hm, hr, isExpired, he, hlt]

/-- Witness for C7 at a concrete expired link. -/
theorem expired_miss_gone_and_frame_witness :
    redirectURL envAllOk ⟨[exRow1], [], 2⟩ "t" 100 = (.gone, ⟨[exRow1], [], 2⟩) :=
  expired_miss_gone_and_frame envAllOk ⟨[exRow1], [], 2⟩ "t" 100 exRow1 5
    rfl rfl rfl rfl rfl (by decide)

/-- C5 counterexample: with a perfectly healthy, never-expiring link in
the store, an error from the cache lookup makes `redirectURL` answer 500
instead of continuing against the store, contradicting the claim that
cache lookup errors are recovered locally. -/
theorem cache_get_error_fails_request :
    (findRow exStateMiss.rows "u" = some exRow2 ∧ exRow2.expirationDate = none) ∧
      redirectURL ⟨.fail, .ok, .ok, .ok⟩ exStateMiss "u" 9 = (.serverError, exStateMiss) := by
  exact ⟨⟨rfl, rfl⟩, rfl⟩

/-- C5 (amended): an error returned by the cache lookup is not recovered:
`redirectURL` fails the request with 500 and never reaches the store. -/
theorem cache_get_error_is_fatal (env : ResolveEnv) (st : State)
    (tok : String) (now : Nat) (h : env.cacheGet = .fail) :
    redirectURL env st tok now = (.serverError, st) := by
  simp [redirectURL, h]

/-- Witness for the amended C5 theorem. -/
theorem cache_get_error_is_fatal_witness :
    redirectURL ⟨.fail, .ok, .ok, .ok⟩ exStateMiss "u" 9 = (.serverError, exStateMiss) :=
  cache_get_error_is_fatal ⟨.fail, .ok, .ok, .ok⟩ exStateMiss "u" 9 rfl

/-- C6 counterexample: on the cache-hit path the original URL is already
determined (it is in the cache), yet an error from the SELECT that
re-reads the access count — a store error on the counter-update path —
makes `redirectURL` answer 500 instead of redirecting. -/
theorem counter_read_error_fails_decided_redirect :
    List.lookup "u" exStateWarm.cache = some "http://b" ∧
      (redirectURL ⟨.ok, .fail, .ok, .ok⟩ exStateWarm "u" 9).1 = .serverError := by
  exact ⟨rfl, rfl⟩

/-- C9: a create request whose `original` fails URL validation is
rejected with the validation error and the state is returned exactly
unchanged: no row is persisted, no cache entry written. -/
theorem invalid_url_rejected_no_row (env : CreateEnv) (validate : String → Bool)
    (st : State) (req : CreateRequest) (tok : String)
    (h : validate req.original = false) :
    shortenURL env validate st req tok = (.validationError, st) := by
  simp [shortenURL, h]

/-- Witness for C9: the spec scenario `original = "not-a-url"` under a
validator that accepts only a concrete well-formed URL. -/
theorem invalid_url_rejected_no_row_witness :
    shortenURL envCreateOk (fun s => s == "https://example.com") exStateMiss
        ⟨"not-a-url", "", 0⟩ "t1"
      = (.validationError, exStateMiss) :=
  invalid_url_rejected_no_row envCreateOk (fun s => s == "https://example.com")
    exStateMiss ⟨"not-a-url", "", 0⟩ "t1" (by decide)

/-- C4 failing input evaluated: creating a link without `expiresAt`
succeeds and stores the zero timestamp; resolving its token on a cold
cache at any later time (here 1) answers 410 Gone, because the stored
zero time is in the past — the resolve fails with Expired even though
the link was created without an expiration. -/
theorem no_expiry_link_gone_on_cache_miss :
    shortenURL envCreateOk (fun _ => true) ⟨[], [], 1⟩ c4Request "abc123"
        = (.ok c4Row, ⟨[c4Row], [("abc123", "https://example.com")], 2⟩) ∧
      (redirectURL envAllOk ⟨[c4Row], [], 2⟩ "abc123" 1).1 = .gone := by
  constructor
  · rfl
  · rfl

/-- Shape of a successful creation: the returned link carries the
request's original and custom token, the row was appended to the table,
and the cache was warmed with the link's token iff the cache SET
succeeded. -/
theorem shortenURL_ok_shape (env : CreateEnv) (validate : String → Bool)
    (st st1 : State) (req : CreateRequest) (gen : String) (link : Row)
    (hc : shortenURL env validate st req gen = (.ok link, st1)) :
    link.original = req.original ∧ link.customShort = req.customShort ∧
      st1.rows = st.rows ++ [link] ∧
      st1.cache = (match env.cacheSet with
        | .ok => (link.short, req.original) :: st.cache
        | .fail => st.cache) := by
  cases hv : validate req.original with
  | false => simp [shortenURL, hv] at hc
  | true =>
    cases hq : env.qrWrite with
    | fail => simp [shortenURL, hv, hq] at hc
    | ok =>
      cases hcf : insertConflict st.rows
          (if req.customShort = "" then gen else req.customShort) req.customShort with
      | true => simp [shortenURL, hv, hq, hcf] at hc
      | false =>
        simp [shortenURL, hv, hq, hcf] at hc
        obtain ⟨hl, hs⟩ := hc
        subst hl
        subst hs
        exact ⟨rfl, rfl, rfl, rfl⟩

/-- C2: two create requests that both omit the custom token both insert
the empty string into the UNIQUE `custom_short` column; once the first
has succeeded, the second reaches the INSERT (valid URL, QR write ok)
and fails with the uniqueness violation instead of returning a link. -/
theorem second_empty_custom_insert_fails
    (envC1 envC2 : CreateEnv) (validate : String → Bool) (st st1 : State)
    (req1 req2 : CreateRequest) (t1 t2 : String) (link1 : Row)
    (h1 : req1.customShort = "") (h2 : req2.customShort = "")
    (hv : validate req2.original = true) (hq : envC2.qrWrite = .ok)
    (hc : shortenURL envC1 validate st req1 t1 = (.ok link1, st1)) :
    (shortenURL envC2 validate st1 req2 t2).1 = .insertError := by
  obtain ⟨-, hcs, hrows, -⟩ := shortenURL_ok_shape _ _ _ _ _ _ _ hc
  have hconf : insertConflict st1.rows t2 "" = true := by
    rw [hrows]
    simp [insertConflict, hcs, h1]
  simp [shortenURL, hv, hq, h2, hconf]

/-- Witness for C2: two concrete custom-token-free creations against an
empty store; the second answers the insert error. -/
theorem second_empty_custom_insert_fails_witness :
    (shortenURL envCreateOk (fun _ => true) ⟨[c4Row], [("abc123", "https://example.com")], 2⟩
        ⟨"https://example.org", "", 0⟩ "xyz789").1 = .insertError :=
  second_empty_custom_insert_fails envCreateOk envCreateOk (fun _ => true)
    ⟨[], [], 1⟩ ⟨[c4Row], [("abc123", "https://example.com")], 2⟩
    c4Request ⟨"https://example.org", "", 0⟩ "abc123" "xyz789" c4Row
    rfl rfl rfl rfl (by rfl)

/-- C3: when `shortenURL` succeeds (valid URL, token accepted by the
store) with all collaborators healthy, resolving the returned token on
the resulting state redirects to the created link's original URL: the
create warmed the cache with exactly that token, so the resolve takes
the cache-hit path. -/
theorem create_then_resolve_round_trip (validate : String → Bool) (st st1 : State)
    (req : CreateRequest) (tok : String) (link : Row) (now : Nat)
    (hc : shortenURL envCreateOk validate st req tok = (.ok link, st1)) :
    (redirectURL envAllOk st1 link.short now).1 = .redirect req.original := by
  obtain ⟨-, -, hrows, hcache⟩ := shortenURL_ok_shape _ _ _ _ _ _ _ hc
  have hlookup : List.lookup link.short st1.cache = some req.original := by
    rw [hcache]
    simp [envCreateOk, List.lookup]
  cases hf : findRow st1.rows link.short with
  | none =>
    rw [findRow, List.find?_eq_none] at hf
    have hmem : link ∈ st1.rows := by
      rw [hrows]
      exact List.mem_append_right _ (by simp)
    exact absurd (hf link hmem) (by simp [rowMatches])
  | some r =>
    simp [redirectURL, envAllOk, hlookup, hf]

/-- Witness for C3: the concrete creation of C4 followed by a resolve of
its token redirects to the created URL. -/
theorem create_then_resolve_round_trip_witness :
    (redirectURL envAllOk ⟨[c4Row], [("abc123", "https://example.com")], 2⟩
        c4Row.short 1).1 = .redirect "https://example.com" :=
  create_then_resolve_round_trip (fun _ => true) ⟨[], [], 1⟩
    ⟨[c4Row], [("abc123", "https://example.com")], 2⟩ c4Request "abc123" c4Row 1
    (by rfl)

/-- C6 (amended): a failure of the UPDATE that writes the incremented
access count is logged and ignored — whatever redirect the request would
answer, it still answers with the UPDATE failing; but on the cache-hit
path the SELECT that re-reads the current count is also part of the
counter update, and an error there fails the already-decided redirect
with 500. -/
theorem counter_update_error_nonfatal_but_read_fatal :
    (∀ (env : ResolveEnv) (st : State) (tok : String) (now : Nat) (u : String),
      (redirectURL env st tok now).1 = .redirect u →
      (redirectURL { env with storeUpdate := .fail } st tok now).1 = .redirect u) ∧
    (∀ (env : ResolveEnv) (st : State) (tok : String) (now : Nat) (u : String),
      env.cacheGet = .ok → List.lookup tok st.cache = some u →
      env.storeQuery = .fail →
      (redirectURL env st tok now).1 = .serverError) := by
  constructor
  · intro env st tok now u h
    obtain ⟨cg, sq, su, cs⟩ := env
    cases cg with
    | fail => simp [redirectURL] at h
    | ok =>
      cases hl : List.lookup tok st.cache with
      | none =>
        cases sq with
        | fail => simp [redirectURL, hl] at h
        | ok =>
          cases hfr : findRow st.rows tok with
          | none => simp [redirectURL, hl, hfr] at h
          | some r =>
            cases hex : isExpired r.expirationDate now with
            | true => simp [redirectURL, hl, hfr, hex] at h
            | false =>
              simp [redirectURL, hl, hfr, hex] at h ⊢
              exact h
      | some orig =>
        cases sq with
        | fail => simp [redirectURL, hl] at h
        | ok =>
          cases hfr : findRow st.rows tok with
          | none => simp [redirectURL, hl, hfr] at h
          | some r =>
            simp [redirectURL, hl, hfr] at h ⊢
            exact h
  · intro env st tok now u hg hl hq
    simp [redirectURL, hg, hl, hq]

/-- Witness for the amended C6 theorem: both halves applied at concrete
inputs — the UPDATE failure leaves the redirect intact, the count
re-read failure turns a decided redirect into 500. -/
theorem counter_update_error_nonfatal_but_read_fatal_witness :
    (redirectURL { envAllOk with storeUpdate := .fail } exStateWarm "u" 9).1
        = .redirect "http://b" ∧
      (redirectURL ⟨.ok, .fail, .ok, .ok⟩ exStateWarm "u" 9).1 = .serverError := by
  constructor
  · exact counter_update_error_nonfatal_but_read_fatal.1 envAllOk exStateWarm "u" 9
      "http://b" (by rfl)
  · exact counter_update_error_nonfatal_but_read_fatal.2 ⟨.ok, .fail, .ok, .ok⟩
      exStateWarm "u" 9 "http://b" rfl rfl rfl

/-- Updating the access count of every matching row moves the first
matching row to the same row with the new count. -/
theorem findRow_setAccessCount (rows : List Row) (tok : String) (n : Nat) (r : Row)
    (h : findRow rows tok = some r) :
    findRow (setAccessCount rows tok n) tok = some { r with accessCount := n } := by
  induction rows with
  | nil => simp [findRow] at h
  | cons a l ih =>
    have hsa : setAccessCount (a :: l) tok n
        = (if rowMatches tok a then { a with accessCount := n } else a)
            :: setAccessCount l tok n := rfl
    cases ha : rowMatches tok a with
    | true =>
      have hra : r = a := by
        rw [findRow, List.find?_cons_of_pos _ ha] at h
        exact (Option.some_inj.mp h).symm
      subst hra
      have hmatch : rowMatches tok { r with accessCount := n } = true := ha
      rw [findRow, hsa, ha, if_pos rfl, List.find?_cons_of_pos _ hmatch]
    | false =>
      rw [findRow, List.find?_cons_of_neg _ (by simp [ha])] at h
      have htail := ih h
      rw [findRow, hsa, ha, if_neg (by simp), List.find?_cons_of_neg _ (by simp [ha])]
      exact htail

/-- Evaluation of `redirectURL` on the cache-hit path with healthy
collaborators: redirect to the cached URL, counter of every matching row
set to the first match's count plus one. -/
theorem redirectURL_allOk_hit (st : State) (tok : String) (now : Nat)
    (u : String) (r : Row)
    (hl : List.lookup tok st.cache = some u) (hr : findRow st.rows tok = some r) :
    redirectURL envAllOk st tok now =
      (.redirect u, { st with rows := setAccessCount st.rows tok (r.accessCount + 1) }) := by
  unfold redirectURL envAllOk
  rw [hl, hr]

/-- Evaluation of `redirectURL` on the cache-miss path for a live link
with healthy collaborators: redirect to the stored URL, counter bumped,
cache warmed. -/
theorem redirectURL_allOk_miss (st : State) (tok : String) (now : Nat) (r : Row)
    (hl : List.lookup tok st.cache = none) (hr : findRow st.rows tok = some r)
    (hex : isExpired r.expirationDate now = false) :
    redirectURL envAllOk st tok now =
      (.redirect r.original,
        { st with rows := setAccessCount st.rows tok (r.accessCount + 1),
                  cache := (tok, r.original) :: st.cache }) := by
  unfold redirectURL envAllOk
  rw [hl, hr]
  dsimp only
  rw [hex]
  rfl

/-- Evaluation of `redirectURL` on the cache-miss path for an expired
link: 410 and no state change. -/
theorem redirectURL_miss_expired (env : ResolveEnv) (st : State) (tok : String)
    (now : Nat) (r : Row)
    (hg : env.cacheGet = .ok) (hq : env.storeQuery = .ok)
    (hl : List.lookup tok st.cache = none) (hr : findRow st.rows tok = some r)
    (hex : isExpired r.expirationDate now = true) :
    redirectURL env st tok now = (.gone, st) := by
  unfold redirectURL
  rw [hg, hl, hq, hr]
  dsimp only
  rw [hex]
  rfl

/-- One successful resolution, with all collaborators healthy, bumps the
access count of the resolved (first matching) row by exactly one,
whichever of the cache-hit or cache-miss paths ran. -/
theorem redirect_success_step (st : State) (tok : String) (now : Nat) (r : Row)
    (hr : findRow st.rows tok = some r)
    (hs : isRedirect (redirectURL envAllOk st tok now).1 = true) :
    findRow (redirectURL envAllOk st tok now).2.rows tok
      = some { r with accessCount := r.accessCount + 1 } := by
  cases hl : List.lookup tok st.cache with
  | some orig =>
    rw [redirectURL_allOk_hit st tok now orig r hl hr]
    exact findRow_setAccessCount st.rows tok (r.accessCount + 1) r hr
  | none =>
    cases hex : isExpired r.expirationDate now with
    | true =>
      rw [redirectURL_miss_expired envAllOk st tok now r rfl rfl hl hr hex] at hs
      simp [isRedirect] at hs
    | false =>
      rw [redirectURL_allOk_miss st tok now r hl hr hex]
      exact findRow_setAccessCount st.rows tok (r.accessCount + 1) r hr

/-- C8: after `n` sequential resolutions of the same token, each of
which answered a redirect, the resolved row's access count is its
initial count plus `n`; the statement quantifies over every starting
cache state, so both the hit and the miss path are covered. -/
theorem access_count_after_n_resolutions (st : State) (tok : String)
    (nows : Nat → Nat) (n : Nat) (r : Row)
    (hr : findRow st.rows tok = some r)
    (hs : ∀ i, i < n →
      isRedirect (redirectURL envAllOk (resolveIter st tok nows i) tok (nows i)).1 = true) :
    findRow (resolveIter st tok nows n).rows tok
      = some { r with accessCount := r.accessCount + n } := by
  induction n with
  | zero => exact hr
  | succ k ih =>
    have hk := ih (fun i hi => hs i (Nat.lt_succ_of_lt hi))
    exact redirect_success_step (resolveIter st tok nows k) tok (nows k)
      { r with accessCount := r.accessCount + k } hk (hs k (Nat.lt_succ_self k))

/-- Witness for C8: two successful resolutions of a concrete link (first
a cache miss, then a cache hit) take its access count from 3 to 5. -/
theorem access_count_after_n_resolutions_witness :
    findRow (resolveIter exStateMiss "u" (fun _ => 9) 2).rows "u"
      = some { exRow2 with accessCount := exRow2.accessCount + 2 } :=
  access_count_after_n_resolutions exStateMiss "u" (fun _ => 9) 2 exRow2
    (by rfl) (by decide)

/-- C10: under the `Intn` contract (every draw is below the alphabet
size), the generated token has exactly 6 characters, the alphabet has
exactly 62 symbols, and every character of the token is drawn from the
alphabet. -/
theorem token_is_six_alphanumerics (draws : Nat → Nat)
    (h : ∀ i, draws i < charset.length) :
    (generateShortLink draws).length = 6 ∧ charset.length = 62 ∧
      ∀ c ∈ (generateShortLink draws).toList, c ∈ charset.toList := by
  refine ⟨?_, by rfl, ?_⟩
  · show ((List.range shortLinkLength).map
        (fun i => charset.toList.getD (draws i) 'a')).length = 6
    rw [List.length_map, List.length_range]
    rfl
  · intro c hc
    simp [generateShortLink, stringWithCharset, shortLinkLength, String.toList] at hc
    obtain ⟨i, hi, hgi⟩ := hc
    have hlt : draws i < charset.data.length := h i
    rw [← hgi]
    show charset.data[draws i]?.getD 'a' ∈ charset.data
    rw [List.getElem?_eq_getElem hlt]
    exact List.getElem_mem hlt

/-- Witness for C10 with the constant all-zero draw sequence. -/
theorem token_is_six_alphanumerics_witness :
    (generateShortLink (fun _ => 0)).length = 6 ∧ charset.length = 62 ∧
      ∀ c ∈ (generateShortLink (fun _ => 0)).toList, c ∈ charset.toList := by
  have h : ∀ i : Nat, (fun _ : Nat => 0) i < charset.length := by
    intro i
    show 0 < charset.length
    decide
  exact token_is_six_alphanumerics (fun _ => 0) h

end Shorrt
